import Mathlib

/- Verification of the Gm7CanProtocol header (Gm7CanProtocol.h), a CAN 2.0B
protocol-definition and codec layer.  The C++ class is stateless apart from the
caller-owned payload buffer, so every member function is embedded as a pure
Lean function.

Modelling conventions:
  * Machine integers (uint8_t/uint16_t/uint32_t/uint64_t) are Nat, with an
    explicit `% 2 ^ w` wherever the C code narrows or stores into a w-bit
    variable in a way that could truncate.
  * A `char *` payload buffer is a function `Nat → Nat` from byte index to
    byte value; a store `buffer[i] = e` becomes `Function.update buffer i
    (e % 256)` (char holds the low 8 bits of the stored int; bytes are taken
    unsigned, as the codec's big-endian contract requires).
  * The C loops (clearBuffer, addCharArrayToBuffer) are structural recursions
    over the loop counter.
  * `bufferStartPos` has default value 0 in the source; here it is always an
    explicit argument.
  * A C++ function that can fall off a `return;` with no value (the source's
    addCharArrayToBuffer success path, decodeModuleStatusAndProgress's short
    path) yields an Option, `none` standing for the unspecified result.
-/

namespace Gm7CanProtocol

/- Private codec parameters of the class (Gm7CanProtocol.h lines 46-47). -/

def uniqueIdSize : Nat := 16

def uniqueIdMask : Nat := 65535

/- MESSAGE ID of 29 bits: PMID (priority/message id, 13 bits) and
UID (unique id, 16 bits), Gm7CanProtocol.h lines 77-80. -/

structure MessageId where
  pmid : Nat
  uid : Nat
deriving DecidableEq, Repr

/- parseMessageId, Gm7CanProtocol.h lines 118-124.  The uid field is the low
16 bits, the pmid field the remaining high bits of the 29-bit identifier. -/

def parseMessageId (canMessageId : Nat) : MessageId :=
  { uid := canMessageId &&& uniqueIdMask
    pmid := canMessageId >>> uniqueIdSize }

/- encodeMessageId (MessageId overload), Gm7CanProtocol.h lines 126-131.
msg is a uint32_t accumulator, hence the final reduction mod 2 ^ 32. -/

def encodeMessageId (messageId : MessageId) : Nat :=
  ((messageId.pmid <<< uniqueIdSize) + messageId.uid) % 2 ^ 32

/- encodeMessageId (priorityId/uniqueId overload), Gm7CanProtocol.h
lines 134-139.  Lean has no overloading, hence the distinct name. -/

def encodeMessageIdParts (priorityId uniqueId : Nat) : Nat :=
  ((priorityId <<< uniqueIdSize) + uniqueId) % 2 ^ 32

/- clearBuffer, Gm7CanProtocol.h lines 110-114: zeroes the bytes at indices
0 .. bufferCount-1.  The C for-loop over i is recursion over bufferCount. -/

def clearBuffer (buffer : Nat → Nat) (bufferCount : Nat) : Nat → Nat :=
  match bufferCount with
  | 0 => buffer
  | n + 1 => Function.update (clearBuffer buffer n) n 0

/- addUint64ToBuffer, Gm7CanProtocol.h lines 141-154: big-endian write of the
8 bytes of value at bufferStartPos, guarded by the capacity check.  Each C
store `buffer[p+i] = value >> s` narrows the shifted value to char, i.e.
keeps its low 8 bits. -/

def addUint64ToBuffer (buffer : Nat → Nat) (bufferCount value bufferStartPos :
    Nat) : Bool × (Nat → Nat) :=
  if bufferCount < bufferStartPos + 8 then
    (false, buffer)
  else
    let b0 := Function.update buffer bufferStartPos ((value >>> 56) % 256)
    let b1 := Function.update b0 (bufferStartPos + 1) ((value >>> 48) % 256)
    let b2 := Function.update b1 (bufferStartPos + 2) ((value >>> 40) % 256)
    let b3 := Function.update b2 (bufferStartPos + 3) ((value >>> 32) % 256)
    let b4 := Function.update b3 (bufferStartPos + 4) ((value >>> 24) % 256)
    let b5 := Function.update b4 (bufferStartPos + 5) ((value >>> 16) % 256)
    let b6 := Function.update b5 (bufferStartPos + 6) ((value >>> 8) % 256)
    let b7 := Function.update b6 (bufferStartPos + 7) (value % 256)
    (true, b7)

/- extractUint64FromBuffer, Gm7CanProtocol.h lines 156-170: returns 0 when
the capacity check fails; that guard path is the only path of this function
with defined C++ semantics.  In the else branch the source computes
`value |= buffer[p] << s` for s = 56, 48, 40, 32, 24, 16, 8, 0 on a char
promoted to int; int is at most 32 bits wide on every target of this header,
so the shifts by 32..56 meet or exceed the promotion width and are undefined
in C/C++ - the source cannot actually rebuild the high four bytes of a
64-bit value.  The or-chain below transcribes the source's textual
expression at unbounded width; the theorems rely only on the guard path
(claim C4), and claim C3 records the else branch as a code bug rather than
proving a 64-bit round trip through this transcription. -/

def extractUint64FromBuffer (buffer : Nat → Nat) (bufferCount bufferStartPos :
    Nat) : Nat :=
  if bufferCount < bufferStartPos + 8 then
    0
  else
    ((buffer bufferStartPos <<< 56 |||
      buffer (bufferStartPos + 1) <<< 48 |||
      buffer (bufferStartPos + 2) <<< 40 |||
      buffer (bufferStartPos + 3) <<< 32 |||
      buffer (bufferStartPos + 4) <<< 24 |||
      buffer (bufferStartPos + 5) <<< 16 |||
      buffer (bufferStartPos + 6) <<< 8 |||
      buffer (bufferStartPos + 7)) % 2 ^ 64)

/- addUint32ToBuffer, Gm7CanProtocol.h lines 172-181. -/

def addUint32ToBuffer (buffer : Nat → Nat) (bufferCount value bufferStartPos :
    Nat) : Bool × (Nat → Nat) :=
  if bufferCount < bufferStartPos + 4 then
    (false, buffer)
  else
    let b0 := Function.update buffer bufferStartPos ((value >>> 24) % 256)
    let b1 := Function.update b0 (bufferStartPos + 1) ((value >>> 16) % 256)
    let b2 := Function.update b1 (bufferStartPos + 2) ((value >>> 8) % 256)
    let b3 := Function.update b2 (bufferStartPos + 3) (value % 256)
    (true, b3)

/- extractUint32FromBuffer, Gm7CanProtocol.h lines 183-193. -/

def extractUint32FromBuffer (buffer : Nat → Nat) (bufferCount bufferStartPos :
    Nat) : Nat :=
  if bufferCount < bufferStartPos + 4 then
    0
  else
    ((buffer bufferStartPos <<< 24 |||
      buffer (bufferStartPos + 1) <<< 16 |||
      buffer (bufferStartPos + 2) <<< 8 |||
      buffer (bufferStartPos + 3)) % 2 ^ 32)

/- addUint16ToBuffer, Gm7CanProtocol.h lines 195-202. -/

def addUint16ToBuffer (buffer : Nat → Nat) (bufferCount value bufferStartPos :
    Nat) : Bool × (Nat → Nat) :=
  if bufferCount < bufferStartPos + 2 then
    (false, buffer)
  else
    let b0 := Function.update buffer bufferStartPos ((value >>> 8) % 256)
    let b1 := Function.update b0 (bufferStartPos + 1) (value % 256)
    (true, b1)

/- extractUint16FromBuffer, Gm7CanProtocol.h lines 204-212. -/

def extractUint16FromBuffer (buffer : Nat → Nat) (bufferCount bufferStartPos :
    Nat) : Nat :=
  if bufferCount < bufferStartPos + 2 then
    0
  else
    ((buffer bufferStartPos <<< 8 |||
      buffer (bufferStartPos + 1)) % 2 ^ 16)

/- The copy loop of addCharArrayToBuffer, Gm7CanProtocol.h lines 218-223:
for i from bufferStartPos while i < bufferCount, store value[i] into
buffer[i] and stop after copying a 0 byte.  fuel is bufferCount - i, the
number of remaining iterations. -/

def charCopyLoop (value buffer : Nat → Nat) (i fuel : Nat) : Nat → Nat :=
  match fuel with
  | 0 => buffer
  | f + 1 =>
    let b := Function.update buffer i (value i)
    if value i = 0 then b else charCopyLoop value b (i + 1) f

/- addCharArrayToBuffer, Gm7CanProtocol.h lines 214-225.  The guard returns
false; the loop path ends in a bare `return;` although the function is
declared bool, so the result on that path is unspecified, modelled as none. -/

def addCharArrayToBuffer (buffer : Nat → Nat) (bufferCount : Nat)
    (value : Nat → Nat) (bufferStartPos : Nat) : Option Bool × (Nat → Nat) :=
  if bufferCount ≤ bufferStartPos then
    (some false, buffer)
  else
    (none, charCopyLoop value buffer bufferStartPos
      (bufferCount - bufferStartPos))

/- encodeHeartbeat, Gm7CanProtocol.h lines 227-237: clear, then the current
timestamp at offset 0, and the last timestamp at offset 4 only when
bufferCount exceeds 7.  The source ignores the results of both inner adds. -/

def encodeHeartbeat (buffer : Nat → Nat) (bufferCount millisCurrent millisLast :
    Nat) : Bool × (Nat → Nat) :=
  let b0 := clearBuffer buffer bufferCount
  if bufferCount < 4 then
    (false, b0)
  else
    let b1 := (addUint32ToBuffer b0 bufferCount millisCurrent 0).2
    if bufferCount > 7 then
      (true, (addUint32ToBuffer b1 bufferCount millisLast 4).2)
    else
      (true, b1)

/- encodeSerialNumberToBuffer, Gm7CanProtocol.h lines 239-242. -/

def encodeSerialNumberToBuffer (buffer : Nat → Nat) (bufferCount serialNumber :
    Nat) : Bool × (Nat → Nat) :=
  addUint64ToBuffer (clearBuffer buffer bufferCount) bufferCount serialNumber 0

/- encodeTypeIdToBuffer, Gm7CanProtocol.h lines 244-247. -/

def encodeTypeIdToBuffer (buffer : Nat → Nat) (bufferCount typeId : Nat) :
    Bool × (Nat → Nat) :=
  addUint16ToBuffer (clearBuffer buffer bufferCount) bufferCount typeId 0

/- encodeModelToBuffer, Gm7CanProtocol.h lines 249-252. -/

def encodeModelToBuffer (buffer : Nat → Nat) (bufferCount : Nat)
    (model : Nat → Nat) : Option Bool × (Nat → Nat) :=
  addCharArrayToBuffer (clearBuffer buffer bufferCount) bufferCount model 0

/- encodeVendorToBuffer, Gm7CanProtocol.h lines 254-257. -/

def encodeVendorToBuffer (buffer : Nat → Nat) (bufferCount : Nat)
    (vendor : Nat → Nat) : Option Bool × (Nat → Nat) :=
  addCharArrayToBuffer (clearBuffer buffer bufferCount) bufferCount vendor 0

/- encodeShortNameToBuffer, Gm7CanProtocol.h lines 259-262. -/

def encodeShortNameToBuffer (buffer : Nat → Nat) (bufferCount : Nat)
    (name : Nat → Nat) : Option Bool × (Nat → Nat) :=
  addCharArrayToBuffer (clearBuffer buffer bufferCount) bufferCount name 0

/- StatusAndProgress, Gm7CanProtocol.h lines 275-279. -/

structure StatusAndProgress where
  status : Nat
  progress : Nat
  progressMax : Nat
deriving DecidableEq, Repr

/- encodeModuleStatusAndProgress (field overload), Gm7CanProtocol.h
lines 281-289: no clearBuffer call; 32-bit status at offset 0, 16-bit
progress at offset 4, 16-bit progressMax at offset 6, each add checked and
an early false return on failure. -/

def encodeModuleStatusAndProgress (buffer : Nat → Nat)
    (bufferCount status progress progressMax : Nat) : Bool × (Nat → Nat) :=
  if bufferCount < 8 then
    (false, buffer)
  else
    let r1 := addUint32ToBuffer buffer bufferCount status 0
    if r1.1 = false then
      (false, r1.2)
    else
      let r2 := addUint16ToBuffer r1.2 bufferCount progress 4
      if r2.1 = false then
        (false, r2.2)
      else
        let r3 := addUint16ToBuffer r2.2 bufferCount progressMax 6
        if r3.1 = false then
          (false, r3.2)
        else
          (true, r3.2)

/- decodeModuleStatusAndProgress, Gm7CanProtocol.h lines 295-304.  The short
path is a bare `return;` in a value-returning function, modelled as none. -/

def decodeModuleStatusAndProgress (buffer : Nat → Nat) (bufferCount : Nat) :
    Option StatusAndProgress :=
  if bufferCount < 8 then
    none
  else
    some { status := extractUint32FromBuffer buffer bufferCount 0
           progress := extractUint16FromBuffer buffer bufferCount 4
           progressMax := extractUint16FromBuffer buffer bufferCount 6 }

/- CanDeviceType, Gm7CanProtocol.h lines 69-75: the enum's uint8_t values. -/

namespace CanDeviceType

def CONTROLLER : Nat := 1

def MODULE : Nat := 2

def PERIPHERAL : Nat := 3

def EXTERNAL_DEVICE : Nat := 4

def READ_ONLY : Nat := 5

end CanDeviceType

/- PMID registry constants used by the classifier and the per-category
lookups, Gm7CanProtocol.h lines 332-456. -/

def HEARTBEAT_CONTROLLER : Nat := 201

def HEARTBEAT_MODULE : Nat := 202

def HEARTBEAT_PERIPHERAL : Nat := 203

def HEARTBEAT_EXTERNAL_DEVICE : Nat := 204

def DEVICE_TYPE_CONTROLLER_SECTION_START : Nat := 4100

def DEVICE_TYPE_CONTROLLER_SECTION_END : Nat := 4199

def DEVICE_TYPE_MODULE_SECTION_START : Nat := 4200

def DEVICE_TYPE_MODULE_GENERIC_RO : Nat := 4208

def DEVICE_TYPE_MODULE_SECTION_END : Nat := 4299

def DEVICE_TYPE_PERIPHERAL_SECTION_START : Nat := 4300

def DEVICE_TYPE_PERIPHERAL_KEYBOARD : Nat := 4301

def DEVICE_TYPE_PERIPHERAL_SECTION_END : Nat := 4399

def DEVICE_TYPE_EXTERNAL_SECTION_START : Nat := 4400

def DEVICE_TYPE_EXTERNAL_GENERIC : Nat := 4301

def DEVICE_TYPE_EXTERNAL_SECTION_END : Nat := 4499

def CONTROLLER_STATUS_AND_PROGRESS : Nat := 5101

def CONTROLLER_MAIN_TIMER_STATUS : Nat := 5102

def CONTROLLER_VALIDATION_TIMER_STATUS : Nat := 5103

def CONTROLLER_INTERNAL_TIMER_STATUS : Nat := 5104

def MODULE_STATUS_AND_PROGRESS : Nat := 5301

def MODULE_MAIN_TIMER_STATUS : Nat := 5302

def MODULE_VALIDATION_TIMER_STATUS : Nat := 5303

def MODULE_INTERNAL_TIMER_STATUS : Nat := 5304

def PERIPHERAL_STATUS_AND_PROGRESS : Nat := 5501

def PERIPHERAL_MAIN_TIMER_STATUS : Nat := 5502

def PERIPHERAL_VALIDATION_TIMER_STATUS : Nat := 5503

def PERIPHERAL_INTERNAL_TIMER_STATUS : Nat := 5504

def EXTERNAL_DEVICE_STATUS_AND_PROGRESS : Nat := 5701

def EXTERNAL_DEVICE_MAIN_TIMER_STATUS : Nat := 5702

def EXTERNAL_DEVICE_VALIDATION_TIMER_STATUS : Nat := 5703

def EXTERNAL_DEVICE_INTERNAL_TIMER_STATUS : Nat := 5704

/- extractCanDeviceTypeFromDeviceTypeId, Gm7CanProtocol.h lines 461-478:
the generic-read-only override first, then the four strict range tests in
the order Controller, Module, Peripheral, External, else READ_ONLY. -/

def extractCanDeviceTypeFromDeviceTypeId (deviceTypeId : Nat) : Nat :=
  if deviceTypeId = DEVICE_TYPE_MODULE_GENERIC_RO then
    CanDeviceType.READ_ONLY
  else if DEVICE_TYPE_CONTROLLER_SECTION_START < deviceTypeId ∧
      deviceTypeId < DEVICE_TYPE_CONTROLLER_SECTION_END then
    CanDeviceType.CONTROLLER
  else if DEVICE_TYPE_MODULE_SECTION_START < deviceTypeId ∧
      deviceTypeId < DEVICE_TYPE_MODULE_SECTION_END then
    CanDeviceType.MODULE
  else if DEVICE_TYPE_PERIPHERAL_SECTION_START < deviceTypeId ∧
      deviceTypeId < DEVICE_TYPE_PERIPHERAL_SECTION_END then
    CanDeviceType.PERIPHERAL
  else if DEVICE_TYPE_EXTERNAL_SECTION_START < deviceTypeId ∧
      deviceTypeId < DEVICE_TYPE_EXTERNAL_SECTION_END then
    CanDeviceType.EXTERNAL_DEVICE
  else
    CanDeviceType.READ_ONLY

/- getPmidHeartbeatForDeviceType, Gm7CanProtocol.h lines 480-486. -/

def getPmidHeartbeatForDeviceType (canDeviceType : Nat) : Nat :=
  if canDeviceType = CanDeviceType.CONTROLLER then HEARTBEAT_CONTROLLER
  else if canDeviceType = CanDeviceType.MODULE then HEARTBEAT_MODULE
  else if canDeviceType = CanDeviceType.PERIPHERAL then HEARTBEAT_PERIPHERAL
  else if canDeviceType = CanDeviceType.EXTERNAL_DEVICE then
    HEARTBEAT_EXTERNAL_DEVICE
  else 0

/- getPmidGameStatusForDeviceType, Gm7CanProtocol.h lines 488-494. -/

def getPmidGameStatusForDeviceType (canDeviceType : Nat) : Nat :=
  if canDeviceType = CanDeviceType.CONTROLLER then
    CONTROLLER_STATUS_AND_PROGRESS
  else if canDeviceType = CanDeviceType.MODULE then MODULE_STATUS_AND_PROGRESS
  else if canDeviceType = CanDeviceType.PERIPHERAL then
    PERIPHERAL_STATUS_AND_PROGRESS
  else if canDeviceType = CanDeviceType.EXTERNAL_DEVICE then
    EXTERNAL_DEVICE_STATUS_AND_PROGRESS
  else 0

/- getPmidMainTimerForDeviceType, Gm7CanProtocol.h lines 496-502. -/

def getPmidMainTimerForDeviceType (canDeviceType : Nat) : Nat :=
  if canDeviceType = CanDeviceType.CONTROLLER then CONTROLLER_MAIN_TIMER_STATUS
  else if canDeviceType = CanDeviceType.MODULE then MODULE_MAIN_TIMER_STATUS
  else if canDeviceType = CanDeviceType.PERIPHERAL then
    PERIPHERAL_MAIN_TIMER_STATUS
  else if canDeviceType = CanDeviceType.EXTERNAL_DEVICE then
    EXTERNAL_DEVICE_MAIN_TIMER_STATUS
  else 0

/- getPmidValidationTimerForDeviceType, Gm7CanProtocol.h lines 504-510. -/

def getPmidValidationTimerForDeviceType (canDeviceType : Nat) : Nat :=
  if canDeviceType = CanDeviceType.CONTROLLER then
    CONTROLLER_VALIDATION_TIMER_STATUS
  else if canDeviceType = CanDeviceType.MODULE then
    MODULE_VALIDATION_TIMER_STATUS
  else if canDeviceType = CanDeviceType.PERIPHERAL then
    PERIPHERAL_VALIDATION_TIMER_STATUS
  else if canDeviceType = CanDeviceType.EXTERNAL_DEVICE then
    EXTERNAL_DEVICE_VALIDATION_TIMER_STATUS
  else 0

/- getPmidInternalTimerForDeviceType, Gm7CanProtocol.h lines 512-518. -/

def getPmidInternalTimerForDeviceType (canDeviceType : Nat) : Nat :=
  if canDeviceType = CanDeviceType.CONTROLLER then
    CONTROLLER_INTERNAL_TIMER_STATUS
  else if canDeviceType = CanDeviceType.MODULE then
    MODULE_INTERNAL_TIMER_STATUS
  else if canDeviceType = CanDeviceType.PERIPHERAL then
    PERIPHERAL_INTERNAL_TIMER_STATUS
  else if canDeviceType = CanDeviceType.EXTERNAL_DEVICE then
    EXTERNAL_DEVICE_INTERNAL_TIMER_STATUS
  else 0

/- Helper lemmas about the bit-level arithmetic and the loop recursions. -/

/- Oring a value whose low k bits are clear with a value below 2 ^ k is
addition: the two operands occupy disjoint bit ranges. -/

theorem two_pow_mul_lor : ∀ k a b : Nat, b < 2 ^ k →
    2 ^ k * a ||| b = 2 ^ k * a + b := by
  intro k
  induction k with
  | zero =>
    intro a b hb
    have hb0 : b = 0 := by simpa using hb
    subst hb0
    simp
  | succ k ih =>
    intro a b hb
    have e0 : 2 ^ (k + 1) * a = 2 * (2 ^ k * a) := by ring
    have hb2 : b / 2 < 2 ^ k := by
      have h2 : (2:Nat) ^ (k + 1) = 2 ^ k * 2 := by ring
      rw [h2] at hb
      omega
    have l2 : (2 * (2 ^ k * a) ||| b) / 2 = 2 ^ k * a + b / 2 := by
      rw [Nat.or_div_two, Nat.mul_div_cancel_left _ (by norm_num : 0 < 2)]
      exact ih a (b / 2) hb2
    have l3 : (2 * (2 ^ k * a) ||| b) % 2 = 1 ↔
        2 * (2 ^ k * a) % 2 = 1 ∨ b % 2 = 1 := Nat.or_mod_two_eq_one
    have final : ∀ L P b2 : Nat, L / 2 = P + b2 / 2 →
        (L % 2 = 1 ↔ (2 * P % 2 = 1 ∨ b2 % 2 = 1)) → L = 2 * P + b2 := by
      intro L P b2 h1 h2
      omega
    rw [e0]
    exact final (2 * (2 ^ k * a) ||| b) (2 ^ k * a) b l2 l3

theorem shiftLeft_lor_eq_add (a b s : Nat) (hb : b < 2 ^ s) :
    a <<< s ||| b = a * 2 ^ s + b := by
  rw [Nat.shiftLeft_eq, Nat.mul_comm]
  rw [two_pow_mul_lor s a b hb, Nat.mul_comm]

/- Recombination of 4 big-endian bytes, as computed by
extractUint32FromBuffer. -/

theorem recombine32 (a0 a1 a2 a3 : Nat)
    (h1 : a1 < 256) (h2 : a2 < 256) (h3 : a3 < 256) :
    a0 <<< 24 ||| a1 <<< 16 ||| a2 <<< 8 ||| a3 =
    a0 * 2 ^ 24 + a1 * 2 ^ 16 + a2 * 2 ^ 8 + a3 := by
  simp only [Nat.or_assoc]
  rw [shiftLeft_lor_eq_add a2 a3 8 (by omega)]
  rw [shiftLeft_lor_eq_add a1 _ 16 (by omega)]
  rw [shiftLeft_lor_eq_add a0 _ 24 (by omega)]
  ring

/- Pointwise description of clearBuffer. -/

theorem clearBuffer_apply (buffer : Nat → Nat) :
    ∀ bufferCount n, clearBuffer buffer bufferCount n =
      if n < bufferCount then 0 else buffer n := by
  intro bufferCount
  induction bufferCount with
  | zero =>
    intro n
    simp [clearBuffer]
  | succ c ih =>
    intro n
    simp only [clearBuffer, Function.update_apply, ih]
    by_cases h1 : n = c
    · simp [h1]
    · by_cases h2 : n < c
      · simp [h1, h2, Nat.lt_succ_of_lt h2]
      · have h3 : ¬ n < c + 1 := by omega
        simp [h1, h2, h3]

/- Pointwise description of charCopyLoop: the byte at n is overwritten with
value n exactly when n lies in the loop window and no strictly earlier source
byte in the window is 0 (the loop stops right after copying a 0 byte). -/

theorem charCopyLoop_apply (value : Nat → Nat) :
    ∀ (fuel : Nat) (buffer : Nat → Nat) (i n : Nat),
      charCopyLoop value buffer i fuel n =
        if i ≤ n ∧ n < i + fuel ∧ ∀ j, j < n → i ≤ j → value j ≠ 0 then
          value n
        else buffer n := by
  intro fuel
  induction fuel with
  | zero =>
    intro buffer i n
    rw [charCopyLoop, if_neg]
    rintro ⟨hle, hlt, -⟩
    omega
  | succ f ih =>
    intro buffer i n
    rw [charCopyLoop]
    by_cases hv : value i = 0
    · rw [if_pos hv, Function.update_apply]
      by_cases hn : n = i
      · rw [if_pos hn, if_pos]
        · rw [hn]
        · subst hn
          exact ⟨Nat.le_refl n, by omega, fun j hj1 hj2 => by omega⟩
      · rw [if_neg hn, if_neg]
        rintro ⟨hle, hlt, hall⟩
        exact hall i (by omega) (by omega) hv
    · rw [if_neg hv, ih]
      by_cases hn : n = i
      · subst hn
        rw [if_neg (by omega), Function.update_apply, if_pos rfl, if_pos]
        exact ⟨Nat.le_refl n, by omega, fun j hj1 hj2 => by omega⟩
      · rw [Function.update_apply, if_neg hn]
        by_cases hc : i + 1 ≤ n ∧ n < i + 1 + f ∧
            ∀ j, j < n → i + 1 ≤ j → value j ≠ 0
        · rw [if_pos hc, if_pos]
          refine ⟨by omega, by omega, fun j hj1 hj2 => ?_⟩
          by_cases hji : j = i
          · subst hji
            exact hv
          · exact hc.2.2 j hj1 (by omega)
        · rw [if_neg hc, if_neg]
          rintro ⟨hle, hlt, hall⟩
          exact hc ⟨by omega, by omega, fun j hj1 hj2 => hall j hj1 (by omega)⟩

/-- Claim C1: the message-id codec round-trips exactly: for every 29-bit
unsigned x, encodeMessageId (parseMessageId x) = x, and for every priorityId
in [0, 8191] and uniqueId in [0, 65535], parseMessageId applied to
encodeMessageId of the pair returns exactly that pair. -/
theorem messageId_codec_roundtrip (x priorityId uniqueId : Nat)
    (hx : x < 2 ^ 29) (hp : priorityId ≤ 8191) (hu : uniqueId ≤ 65535) :
    encodeMessageId (parseMessageId x) = x ∧
    parseMessageId (encodeMessageIdParts priorityId uniqueId) =
      ⟨priorityId, uniqueId⟩ := by
  have hmask : ∀ y : Nat, y &&& uniqueIdMask = y % 65536 := by
    intro y
    have h : uniqueIdMask = 2 ^ 16 - 1 := by norm_num [uniqueIdMask]
    rw [h, Nat.and_pow_two_sub_one_eq_mod]
  constructor
  · simp only [encodeMessageId, parseMessageId, hmask, Nat.shiftLeft_eq,
      Nat.shiftRight_eq_div_pow, uniqueIdSize]
    norm_num at hx ⊢
    omega
  · simp only [encodeMessageIdParts, parseMessageId, hmask, Nat.shiftLeft_eq,
      Nat.shiftRight_eq_div_pow, uniqueIdSize, MessageId.mk.injEq]
    norm_num
    omega

/-- Witness for C1 at x = 123456789, priorityId = 1234, uniqueId = 54321. -/
theorem messageId_codec_roundtrip_witness :
    encodeMessageId (parseMessageId 123456789) = 123456789 ∧
    parseMessageId (encodeMessageIdParts 1234 54321) = ⟨1234, 54321⟩ :=
  messageId_codec_roundtrip 123456789 1234 54321 (by norm_num) (by norm_num)
    (by norm_num)

/-- Claim C2: for every width N in {2, 4, 8} bytes, the corresponding buffer
write returns true iff bufferCount is at least bufferStartPos + N, and when it
returns false the buffer is returned exactly as it was. -/
theorem addUint_success_iff_bound (buffer : Nat → Nat) (c v o : Nat) :
    ((addUint16ToBuffer buffer c v o).1 = true ↔ o + 2 ≤ c) ∧
    ((addUint16ToBuffer buffer c v o).1 = false →
      (addUint16ToBuffer buffer c v o).2 = buffer) ∧
    ((addUint32ToBuffer buffer c v o).1 = true ↔ o + 4 ≤ c) ∧
    ((addUint32ToBuffer buffer c v o).1 = false →
      (addUint32ToBuffer buffer c v o).2 = buffer) ∧
    ((addUint64ToBuffer buffer c v o).1 = true ↔ o + 8 ≤ c) ∧
    ((addUint64ToBuffer buffer c v o).1 = false →
      (addUint64ToBuffer buffer c v o).2 = buffer) := by
  unfold addUint16ToBuffer addUint32ToBuffer addUint64ToBuffer
  refine ⟨?_, ?_, ?_, ?_, ?_, ?_⟩ <;> split <;> simp <;> omega

/-- Witness for C2: a 2-byte write at offset 2 into capacity 4 succeeds; a
2-byte write at offset 3 into capacity 4 fails and hands the buffer back
untouched. -/
theorem addUint_success_iff_bound_witness :
    (addUint16ToBuffer (fun _ => 9) 4 7 2).1 = true ∧
    ((addUint16ToBuffer (fun _ => 9) 4 7 3).1 = false →
      (addUint16ToBuffer (fun _ => 9) 4 7 3).2 = (fun _ => 9)) :=
  ⟨(addUint_success_iff_bound (fun _ => 9) 4 7 2).1.mpr (by norm_num),
   (addUint_success_iff_bound (fun _ => 9) 4 7 3).2.1⟩

/-- Claim C3, recorded as a code bug at width 64: the defined-behavior
evidence.  The 16-bit and 32-bit write-then-read round trips hold for every
value of the width, every buffer and every valid offset, exactly as the
claim states for those widths, and addUint64ToBuffer stores the failing
input 0x0123456789ABCDEF as the big-endian bytes
01 23 45 67 89 AB CD EF, so the write side of the 64-bit round trip is
correct and the information is present in the buffer.  The read side,
extractUint64FromBuffer, rebuilds the high four bytes by shifting a
char promoted to int by 32..56 bits (Gm7CanProtocol.h lines 161-164), which
is undefined on every target of this header, so the program does not
implement the 64-bit round trip the claim and the spec require. -/
theorem addUint_extractUint_roundtrip_evidence (buffer : Nat → Nat)
    (c o v16 v32 : Nat) (h16 : v16 < 2 ^ 16) (h32 : v32 < 2 ^ 32) :
    (o + 2 ≤ c →
      extractUint16FromBuffer (addUint16ToBuffer buffer c v16 o).2 c o = v16) ∧
    (o + 4 ≤ c →
      extractUint32FromBuffer (addUint32ToBuffer buffer c v32 o).2 c o = v32) ∧
    ((addUint64ToBuffer (fun _ => 0) 8 81985529216486895 0).1 = true ∧
     (addUint64ToBuffer (fun _ => 0) 8 81985529216486895 0).2 0 = 1 ∧
     (addUint64ToBuffer (fun _ => 0) 8 81985529216486895 0).2 1 = 35 ∧
     (addUint64ToBuffer (fun _ => 0) 8 81985529216486895 0).2 2 = 69 ∧
     (addUint64ToBuffer (fun _ => 0) 8 81985529216486895 0).2 3 = 103 ∧
     (addUint64ToBuffer (fun _ => 0) 8 81985529216486895 0).2 4 = 137 ∧
     (addUint64ToBuffer (fun _ => 0) 8 81985529216486895 0).2 5 = 171 ∧
     (addUint64ToBuffer (fun _ => 0) 8 81985529216486895 0).2 6 = 205 ∧
     (addUint64ToBuffer (fun _ => 0) 8 81985529216486895 0).2 7 = 239) := by
  refine ⟨fun h => ?_, fun h => ?_, by decide⟩
  · have hg : ¬ c < o + 2 := by omega
    simp only [addUint16ToBuffer, extractUint16FromBuffer, if_neg hg]
    simp only [Function.update_apply, self_eq_add_right, add_right_inj]
    norm_num
    rw [shiftLeft_lor_eq_add _ _ 8 (by
      have := Nat.mod_lt v16 (show 0 < 256 by norm_num)
      omega)]
    simp only [Nat.shiftRight_eq_div_pow]
    omega
  · have hg : ¬ c < o + 4 := by omega
    simp only [addUint32ToBuffer, extractUint32FromBuffer, if_neg hg]
    simp only [Function.update_apply, self_eq_add_right, add_right_inj]
    norm_num
    rw [recombine32 _ _ _ _ (Nat.mod_lt _ (by norm_num))
      (Nat.mod_lt _ (by norm_num)) (Nat.mod_lt _ (by norm_num))]
    simp only [Nat.shiftRight_eq_div_pow]
    omega

/-- Witness for the C3 evidence theorem at offset 0 in an 8-byte buffer,
with the values 0xBEEF and 0xDEADBEEF. -/
theorem addUint_extractUint_roundtrip_evidence_witness :
    extractUint16FromBuffer
      (addUint16ToBuffer (fun _ => 0) 8 48879 0).2 8 0 = 48879 ∧
    extractUint32FromBuffer
      (addUint32ToBuffer (fun _ => 0) 8 3735928559 0).2 8 0 = 3735928559 := by
  have h := addUint_extractUint_roundtrip_evidence (fun _ => 0) 8 0 48879
    3735928559 (by norm_num) (by norm_num)
  exact ⟨h.1 (by norm_num), h.2.1 (by norm_num)⟩

/-- Claim C4: for every width N in {2, 4, 8} bytes, when bufferCount is less
than bufferStartPos + N the corresponding read returns exactly 0, and the
result does not depend on any buffer byte (the guard fires before any buffer
access). -/
theorem extractUint_capacity_violation_zero (buffer buffer2 : Nat → Nat)
    (c o : Nat) :
    (c < o + 2 → extractUint16FromBuffer buffer c o = 0 ∧
      extractUint16FromBuffer buffer c o = extractUint16FromBuffer buffer2 c o) ∧
    (c < o + 4 → extractUint32FromBuffer buffer c o = 0 ∧
      extractUint32FromBuffer buffer c o = extractUint32FromBuffer buffer2 c o) ∧
    (c < o + 8 → extractUint64FromBuffer buffer c o = 0 ∧
      extractUint64FromBuffer buffer c o = extractUint64FromBuffer buffer2 c o) := by
  unfold extractUint16FromBuffer extractUint32FromBuffer extractUint64FromBuffer
  refine ⟨fun h => ?_, fun h => ?_, fun h => ?_⟩ <;>
    rw [if_pos h, if_pos h] <;> simp

/-- Witness for C4: reading 2 bytes at offset 7 from capacity 8 yields 0,
whatever the buffer holds. -/
theorem extractUint_capacity_violation_zero_witness :
    extractUint16FromBuffer (fun _ => 255) 8 7 = 0 ∧
    extractUint16FromBuffer (fun _ => 255) 8 7 =
      extractUint16FromBuffer (fun _ => 3) 8 7 :=
  (extractUint_capacity_violation_zero (fun _ => 255) (fun _ => 3) 8 7).1
    (by norm_num)

/- Pointwise descriptions of the 2-byte and 4-byte writes, used for the
payload-encoder theorems. -/

theorem addUint16_apply (b : Nat → Nat) (c v o n : Nat) (h : ¬ c < o + 2) :
    (addUint16ToBuffer b c v o).2 n =
      if n = o then (v >>> 8) % 256
      else if n = o + 1 then v % 256
      else b n := by
  simp only [addUint16ToBuffer, if_neg h]
  simp only [Function.update_apply]
  split_ifs <;> first | rfl | (exfalso; omega)

theorem addUint32_apply (b : Nat → Nat) (c v o n : Nat) (h : ¬ c < o + 4) :
    (addUint32ToBuffer b c v o).2 n =
      if n = o then (v >>> 24) % 256
      else if n = o + 1 then (v >>> 16) % 256
      else if n = o + 2 then (v >>> 8) % 256
      else if n = o + 3 then v % 256
      else b n := by
  simp only [addUint32ToBuffer, if_neg h]
  simp only [Function.update_apply]
  split_ifs <;> first | rfl | (exfalso; omega)

/-- Claim C5: extractCanDeviceTypeFromDeviceTypeId classifies every 16-bit
deviceTypeId as follows: the generic-read-only module id 4208 is READ_ONLY
although it lies inside the Module sub-range (the override is taken first);
ids strictly inside (4100, 4199) are CONTROLLER, strictly inside
(4200, 4299) other than 4208 are MODULE, strictly inside (4300, 4399) are
PERIPHERAL, strictly inside (4400, 4499) are EXTERNAL_DEVICE (the sub-ranges
are tested in this order with strict comparisons); every id equal to a
sub-range boundary or outside all four sub-ranges is READ_ONLY. -/
theorem extractCanDeviceType_classification (id : Nat) (hid : id < 65536) :
    (id = 4208 →
      extractCanDeviceTypeFromDeviceTypeId id = CanDeviceType.READ_ONLY) ∧
    (4100 < id → id < 4199 →
      extractCanDeviceTypeFromDeviceTypeId id = CanDeviceType.CONTROLLER) ∧
    (4200 < id → id < 4299 → id ≠ 4208 →
      extractCanDeviceTypeFromDeviceTypeId id = CanDeviceType.MODULE) ∧
    (4300 < id → id < 4399 →
      extractCanDeviceTypeFromDeviceTypeId id = CanDeviceType.PERIPHERAL) ∧
    (4400 < id → id < 4499 →
      extractCanDeviceTypeFromDeviceTypeId id = CanDeviceType.EXTERNAL_DEVICE) ∧
    (id ≤ 4100 ∨ (4199 ≤ id ∧ id ≤ 4200) ∨ (4299 ≤ id ∧ id ≤ 4300) ∨
        (4399 ≤ id ∧ id ≤ 4400) ∨ 4499 ≤ id →
      extractCanDeviceTypeFromDeviceTypeId id = CanDeviceType.READ_ONLY) := by
  simp only [extractCanDeviceTypeFromDeviceTypeId,
    DEVICE_TYPE_MODULE_GENERIC_RO,
    DEVICE_TYPE_CONTROLLER_SECTION_START, DEVICE_TYPE_CONTROLLER_SECTION_END,
    DEVICE_TYPE_MODULE_SECTION_START, DEVICE_TYPE_MODULE_SECTION_END,
    DEVICE_TYPE_PERIPHERAL_SECTION_START, DEVICE_TYPE_PERIPHERAL_SECTION_END,
    DEVICE_TYPE_EXTERNAL_SECTION_START, DEVICE_TYPE_EXTERNAL_SECTION_END,
    CanDeviceType.CONTROLLER, CanDeviceType.MODULE, CanDeviceType.PERIPHERAL,
    CanDeviceType.EXTERNAL_DEVICE, CanDeviceType.READ_ONLY]
  refine ⟨fun h => ?_, fun h1 h2 => ?_, fun h1 h2 h3 => ?_, fun h1 h2 => ?_,
    fun h1 h2 => ?_, fun h => ?_⟩ <;> split_ifs <;> omega

/-- Witness for C5 at the override id 4208, one interior id per sub-range,
and the boundary id 4400. -/
theorem extractCanDeviceType_classification_witness :
    extractCanDeviceTypeFromDeviceTypeId 4208 = CanDeviceType.READ_ONLY ∧
    extractCanDeviceTypeFromDeviceTypeId 4150 = CanDeviceType.CONTROLLER ∧
    extractCanDeviceTypeFromDeviceTypeId 4250 = CanDeviceType.MODULE ∧
    extractCanDeviceTypeFromDeviceTypeId 4350 = CanDeviceType.PERIPHERAL ∧
    extractCanDeviceTypeFromDeviceTypeId 4450 = CanDeviceType.EXTERNAL_DEVICE ∧
    extractCanDeviceTypeFromDeviceTypeId 4400 = CanDeviceType.READ_ONLY :=
  ⟨(extractCanDeviceType_classification 4208 (by norm_num)).1 rfl,
   (extractCanDeviceType_classification 4150 (by norm_num)).2.1
     (by norm_num) (by norm_num),
   (extractCanDeviceType_classification 4250 (by norm_num)).2.2.1
     (by norm_num) (by norm_num) (by norm_num),
   (extractCanDeviceType_classification 4350 (by norm_num)).2.2.2.1
     (by norm_num) (by norm_num),
   (extractCanDeviceType_classification 4450 (by norm_num)).2.2.2.2.1
     (by norm_num) (by norm_num),
   (extractCanDeviceType_classification 4400 (by norm_num)).2.2.2.2.2
     (by norm_num)⟩

/-- Claim C6: encoding status 0xAABBCCDD, progress 0x1122, progressMax 0x3344
into an 8-byte buffer succeeds and yields the bytes AA BB CC DD 11 22 33 44,
and decoding that buffer returns exactly the original triple. -/
theorem moduleStatusAndProgress_example :
    (encodeModuleStatusAndProgress (fun _ => 0) 8 2864434397 4386 13124).1 =
      true ∧
    (encodeModuleStatusAndProgress (fun _ => 0) 8 2864434397 4386 13124).2 0 =
      170 ∧
    (encodeModuleStatusAndProgress (fun _ => 0) 8 2864434397 4386 13124).2 1 =
      187 ∧
    (encodeModuleStatusAndProgress (fun _ => 0) 8 2864434397 4386 13124).2 2 =
      204 ∧
    (encodeModuleStatusAndProgress (fun _ => 0) 8 2864434397 4386 13124).2 3 =
      221 ∧
    (encodeModuleStatusAndProgress (fun _ => 0) 8 2864434397 4386 13124).2 4 =
      17 ∧
    (encodeModuleStatusAndProgress (fun _ => 0) 8 2864434397 4386 13124).2 5 =
      34 ∧
    (encodeModuleStatusAndProgress (fun _ => 0) 8 2864434397 4386 13124).2 6 =
      51 ∧
    (encodeModuleStatusAndProgress (fun _ => 0) 8 2864434397 4386 13124).2 7 =
      68 ∧
    decodeModuleStatusAndProgress
      (encodeModuleStatusAndProgress (fun _ => 0) 8 2864434397 4386 13124).2
      8 = some ⟨2864434397, 4386, 13124⟩ := by
  decide

/-- Counterexample to C7: encodeModuleStatusAndProgress never clears the
destination buffer.  With capacity 7 (less than 8) and an all-ones buffer it
returns false and the visible buffer still holds the byte 1 at index 0, not
the all-zero cleared state the claim asserts. -/
theorem encodeModuleStatusAndProgress_not_cleared_cex :
    (encodeModuleStatusAndProgress (fun _ => 1) 7 2864434397 4386 13124).1 =
      false ∧
    (encodeModuleStatusAndProgress (fun _ => 1) 7 2864434397 4386 13124).2 0 =
      1 ∧
    (1 : Nat) ≠ 0 := by
  decide

/-- Amended C7: the heartbeat, serial-number, type-id, model, vendor and
short-name encoders zero-fill the first bufferCount bytes before writing
(on a failed write the visible buffer is the cleared buffer, and every byte
inside capacity not subsequently written is 0), but encodeModuleStatusAndProgress
performs no zero-fill: with capacity less than 8 it returns false and leaves
the buffer exactly as it was. -/
theorem payload_encoders_zero_fill_amended :
    (∀ (b : Nat → Nat) (c mc ml : Nat), c < 4 →
      encodeHeartbeat b c mc ml = (false, clearBuffer b c)) ∧
    (∀ (b : Nat → Nat) (c mc ml n : Nat), 4 ≤ n → n < c → c < 8 →
      (encodeHeartbeat b c mc ml).2 n = 0) ∧
    (∀ (b : Nat → Nat) (c v : Nat), c < 8 →
      encodeSerialNumberToBuffer b c v = (false, clearBuffer b c)) ∧
    (∀ (b : Nat → Nat) (c v : Nat), c < 2 →
      encodeTypeIdToBuffer b c v = (false, clearBuffer b c)) ∧
    (∀ (b : Nat → Nat) (c v n : Nat), 2 ≤ n → n < c →
      (encodeTypeIdToBuffer b c v).2 n = 0) ∧
    (∀ (b m : Nat → Nat) (c n j : Nat), n < c → j < n → m j = 0 →
      (encodeModelToBuffer b c m).2 n = 0) ∧
    (∀ (b m : Nat → Nat) (c n j : Nat), n < c → j < n → m j = 0 →
      (encodeVendorToBuffer b c m).2 n = 0) ∧
    (∀ (b m : Nat → Nat) (c n j : Nat), n < c → j < n → m j = 0 →
      (encodeShortNameToBuffer b c m).2 n = 0) ∧
    (∀ (b : Nat → Nat) (c s p pm : Nat), c < 8 →
      encodeModuleStatusAndProgress b c s p pm = (false, b)) := by
  have hstring : ∀ (b m : Nat → Nat) (c n j : Nat), n < c → j < n → m j = 0 →
      (addCharArrayToBuffer (clearBuffer b c) c m 0).2 n = 0 := by
    intro b m c n j hn hj hmj
    simp only [addCharArrayToBuffer, if_neg (show ¬ c ≤ 0 by omega)]
    rw [charCopyLoop_apply]
    rw [if_neg]
    · rw [clearBuffer_apply, if_pos hn]
    · rintro ⟨-, -, hall⟩
      exact hall j hj (by omega) hmj
  refine ⟨?_, ?_, ?_, ?_, ?_, ?_, ?_, ?_, ?_⟩
  · intro b c mc ml h
    simp only [encodeHeartbeat]
    rw [if_pos h]
  · intro b c mc ml n h4 hn hc
    simp only [encodeHeartbeat]
    rw [if_neg (show ¬ c < 4 by omega), if_neg (show ¬ c > 7 by omega)]
    dsimp only
    rw [addUint32_apply _ _ _ _ _ (by omega)]
    rw [if_neg (by omega), if_neg (by omega), if_neg (by omega),
      if_neg (by omega), clearBuffer_apply, if_pos hn]
  · intro b c v h
    simp only [encodeSerialNumberToBuffer, addUint64ToBuffer]
    rw [if_pos (show c < 0 + 8 by omega)]
  · intro b c v h
    simp only [encodeTypeIdToBuffer, addUint16ToBuffer]
    rw [if_pos (show c < 0 + 2 by omega)]
  · intro b c v n h2 hn
    simp only [encodeTypeIdToBuffer]
    rw [addUint16_apply _ _ _ _ _ (by omega)]
    rw [if_neg (by omega), if_neg (by omega), clearBuffer_apply, if_pos hn]
  · intro b m c n j hn hj hmj
    exact hstring b m c n j hn hj hmj
  · intro b m c n j hn hj hmj
    exact hstring b m c n j hn hj hmj
  · intro b m c n j hn hj hmj
    exact hstring b m c n j hn hj hmj
  · intro b c s p pm h
    simp only [encodeModuleStatusAndProgress]
    rw [if_pos h]

/-- Witness for the amended C7: the status-and-progress encoder at capacity 7
hands back the untouched all-ones buffer, and the type-id encoder leaves
byte 5 of an 8-byte buffer zero. -/
theorem payload_encoders_zero_fill_amended_witness :
    encodeModuleStatusAndProgress (fun _ => 1) 7 0 0 0 =
      (false, fun _ => 1) ∧
    (encodeTypeIdToBuffer (fun _ => 1) 8 4201).2 5 = 0 :=
  ⟨payload_encoders_zero_fill_amended.2.2.2.2.2.2.2.2 (fun _ => 1) 7 0 0 0
     (by norm_num),
   payload_encoders_zero_fill_amended.2.2.2.2.1 (fun _ => 1) 8 4201 5
     (by norm_num) (by norm_num)⟩

/-- Claim C8: each of the five per-category PMID lookups returns the sentinel
0 for every uint8_t argument other than the CONTROLLER, MODULE, PERIPHERAL
and EXTERNAL_DEVICE enum values (in particular for READ_ONLY), and the
heartbeat lookup maps CONTROLLER to the registry constant
HEARTBEAT_CONTROLLER, whose value is 201. -/
theorem getPmid_lookup_spec (t : Nat) (ht : t < 256) :
    (t ≠ CanDeviceType.CONTROLLER → t ≠ CanDeviceType.MODULE →
     t ≠ CanDeviceType.PERIPHERAL → t ≠ CanDeviceType.EXTERNAL_DEVICE →
      getPmidHeartbeatForDeviceType t = 0 ∧
      getPmidGameStatusForDeviceType t = 0 ∧
      getPmidMainTimerForDeviceType t = 0 ∧
      getPmidValidationTimerForDeviceType t = 0 ∧
      getPmidInternalTimerForDeviceType t = 0) ∧
    getPmidHeartbeatForDeviceType CanDeviceType.CONTROLLER =
      HEARTBEAT_CONTROLLER ∧
    HEARTBEAT_CONTROLLER = 201 := by
  refine ⟨fun h1 h2 h3 h4 => ?_, by decide, by decide⟩
  simp only [CanDeviceType.CONTROLLER, CanDeviceType.MODULE,
    CanDeviceType.PERIPHERAL, CanDeviceType.EXTERNAL_DEVICE] at h1 h2 h3 h4
  simp only [getPmidHeartbeatForDeviceType, getPmidGameStatusForDeviceType,
    getPmidMainTimerForDeviceType, getPmidValidationTimerForDeviceType,
    getPmidInternalTimerForDeviceType,
    CanDeviceType.CONTROLLER, CanDeviceType.MODULE, CanDeviceType.PERIPHERAL,
    CanDeviceType.EXTERNAL_DEVICE,
    HEARTBEAT_CONTROLLER, HEARTBEAT_MODULE, HEARTBEAT_PERIPHERAL,
    HEARTBEAT_EXTERNAL_DEVICE,
    CONTROLLER_STATUS_AND_PROGRESS, MODULE_STATUS_AND_PROGRESS,
    PERIPHERAL_STATUS_AND_PROGRESS, EXTERNAL_DEVICE_STATUS_AND_PROGRESS,
    CONTROLLER_MAIN_TIMER_STATUS, MODULE_MAIN_TIMER_STATUS,
    PERIPHERAL_MAIN_TIMER_STATUS, EXTERNAL_DEVICE_MAIN_TIMER_STATUS,
    CONTROLLER_VALIDATION_TIMER_STATUS, MODULE_VALIDATION_TIMER_STATUS,
    PERIPHERAL_VALIDATION_TIMER_STATUS, EXTERNAL_DEVICE_VALIDATION_TIMER_STATUS,
    CONTROLLER_INTERNAL_TIMER_STATUS, MODULE_INTERNAL_TIMER_STATUS,
    PERIPHERAL_INTERNAL_TIMER_STATUS, EXTERNAL_DEVICE_INTERNAL_TIMER_STATUS]
  refine ⟨?_, ?_, ?_, ?_, ?_⟩ <;> split_ifs <;> omega

/-- Witness for C8 at the READ_ONLY value 5: all five lookups yield 0. -/
theorem getPmid_lookup_spec_witness :
    getPmidHeartbeatForDeviceType 5 = 0 ∧
    getPmidGameStatusForDeviceType 5 = 0 ∧
    getPmidMainTimerForDeviceType 5 = 0 ∧
    getPmidValidationTimerForDeviceType 5 = 0 ∧
    getPmidInternalTimerForDeviceType 5 = 0 :=
  (getPmid_lookup_spec 5 (by norm_num)).1 (by decide) (by decide) (by decide)
    (by decide)

/-- Counterexample to C9: addCharArrayToBuffer does not copy the source from
its beginning.  With capacity 3, start offset 1 and the source bytes
65, 66, 0 the byte written at position 1 is value[1] = 66, not the source's
first byte 65 that the claim predicts. -/
theorem addCharArrayToBuffer_offset_cex :
    (addCharArrayToBuffer (fun _ => 7) 3
      (fun i => if i = 0 then 65 else if i = 1 then 66 else 0) 1).2 1 = 66 ∧
    (66 : Nat) ≠ 65 := by
  decide

/-- Amended C9: addCharArrayToBuffer copies value[i] to buffer[i] for
i = bufferStartPos, bufferStartPos + 1, ..., stopping at buffer capacity or
right after copying the source's first null byte at or past bufferStartPos
(so the first bufferStartPos source bytes are skipped, not copied), and
writes no other buffer byte; it returns false when capacity is at most
bufferStartPos, while on the copy path the source's trailing bare `return;`
leaves the boolean result unspecified. -/
theorem addCharArrayToBuffer_amended (buffer value : Nat → Nat) (c o : Nat) :
    (c ≤ o → addCharArrayToBuffer buffer c value o = (some false, buffer)) ∧
    (o < c → (addCharArrayToBuffer buffer c value o).1 = none) ∧
    (o < c → ∀ n, (addCharArrayToBuffer buffer c value o).2 n =
      if o ≤ n ∧ n < c ∧ ∀ j, j < n → o ≤ j → value j ≠ 0 then value n
      else buffer n) := by
  refine ⟨fun h => ?_, fun h => ?_, fun h n => ?_⟩
  · simp only [addCharArrayToBuffer, if_pos h]
  · simp only [addCharArrayToBuffer, if_neg (show ¬ c ≤ o by omega)]
  · simp only [addCharArrayToBuffer, if_neg (show ¬ c ≤ o by omega)]
    rw [charCopyLoop_apply]
    have e : o + (c - o) = c := by omega
    rw [e]

/-- Witness for the amended C9: with capacity 1 and offset 1 the call fails
with the buffer untouched; with offset 0 inside capacity the result value is
the unspecified marker. -/
theorem addCharArrayToBuffer_amended_witness :
    addCharArrayToBuffer (fun _ => 7) 1 (fun _ => 65) 1 =
      (some false, fun _ => 7) ∧
    (addCharArrayToBuffer (fun _ => 7) 3 (fun _ => 65) 0).1 = none :=
  ⟨(addCharArrayToBuffer_amended (fun _ => 7) (fun _ => 65) 1 1).1
     (by norm_num),
   (addCharArrayToBuffer_amended (fun _ => 7) (fun _ => 65) 3 0).2.1
     (by norm_num)⟩

/-- Claim C10: the registry constant DEVICE_TYPE_EXTERNAL_GENERIC equals
4301, the same value as DEVICE_TYPE_PERIPHERAL_KEYBOARD; 4301 lies strictly
inside the Peripheral sub-range (4300, 4399) and not inside the External
sub-range (4400, 4499), so the classifier returns PERIPHERAL for it, not
EXTERNAL_DEVICE. -/
theorem externalGeneric_classified_peripheral :
    DEVICE_TYPE_EXTERNAL_GENERIC = 4301 ∧
    DEVICE_TYPE_EXTERNAL_GENERIC = DEVICE_TYPE_PERIPHERAL_KEYBOARD ∧
    DEVICE_TYPE_PERIPHERAL_SECTION_START < DEVICE_TYPE_EXTERNAL_GENERIC ∧
    DEVICE_TYPE_EXTERNAL_GENERIC < DEVICE_TYPE_PERIPHERAL_SECTION_END ∧
    ¬ (DEVICE_TYPE_EXTERNAL_SECTION_START < DEVICE_TYPE_EXTERNAL_GENERIC ∧
       DEVICE_TYPE_EXTERNAL_GENERIC < DEVICE_TYPE_EXTERNAL_SECTION_END) ∧
    extractCanDeviceTypeFromDeviceTypeId DEVICE_TYPE_EXTERNAL_GENERIC =
      CanDeviceType.PERIPHERAL ∧
    CanDeviceType.PERIPHERAL ≠ CanDeviceType.EXTERNAL_DEVICE := by
  decide

end Gm7CanProtocol
